import Mathlib

/-!
Verification of the GNSS ephemerides tool (`Efemerides.py`).

The development shallowly embeds the two pure cores of the program:

* `calculate_gps_week_number` — the date → GPS-week/day-of-year transform
  (source lines 27–41), together with the URL construction of
  `download_efemerides` (source lines 69–87);
* the nearest-station ranking of the "Generar Mapa" block
  (source lines 227–355), including the DMS → decimal conversion
  (lines 178–179) and the `user_coord` acceptance test (lines 181–182).

Python `datetime` arithmetic is embedded through the proleptic Gregorian
ordinal (`date.toordinal`).  Python's `//` and `%` on integers are floor
division and floor modulus; for the positive divisors 7 and 10 used by the
source these agree with Lean's `/` and `%` on `ℤ` (`Int.ediv`/`Int.emod`),
which is what the embedding uses.  Coordinates and distances are embedded
as `ℚ`; the geodesic distance itself is an external collaborator
(`geopy.distance.geodesic`) and is kept abstract as a function parameter.
-/

/-- A calendar date `(year, month, day)`, as handled by
`datetime.strptime(str(date), "%Y-%m-%d")` in the source. -/
structure Date where
  year : ℕ
  month : ℕ
  day : ℕ
deriving DecidableEq, Repr

/-- Gregorian leap-year test, as in Python's `datetime` module. -/
def isLeap (y : ℕ) : Bool :=
  y % 4 == 0 && (y % 100 != 0 || y % 400 == 0)

/-- Number of days in month `m` of year `y` (Python `_DAYS_IN_MONTH` with
the February leap adjustment). -/
def daysInMonth (y m : ℕ) : ℕ :=
  match m with
  | 2 => if isLeap y then 29 else 28
  | 4 | 6 | 9 | 11 => 30
  | _ => 31

/-- Days in year `y` strictly before month `m` (Python `_days_before_month`). -/
def days_before_month (y : ℕ) : ℕ → ℕ
  | 0 => 0
  | 1 => 0
  | m + 2 => days_before_month y (m + 1) + daysInMonth y (m + 1)

/-- Validity of a calendar date: exactly the dates accepted by
`datetime.strptime` with format `"%Y-%m-%d"`. -/
def ValidDate (d : Date) : Prop :=
  1 ≤ d.year ∧ 1 ≤ d.month ∧ d.month ≤ 12 ∧ 1 ≤ d.day ∧ d.day ≤ daysInMonth d.year d.month

instance (d : Date) : Decidable (ValidDate d) :=
  decidable_of_iff
    (1 ≤ d.year ∧ 1 ≤ d.month ∧ d.month ≤ 12 ∧ 1 ≤ d.day ∧ d.day ≤ daysInMonth d.year d.month)
    Iff.rfl

/-- 1-based ordinal day within the year (Python `timetuple().tm_yday`). -/
def day_of_year (d : Date) : ℕ :=
  days_before_month d.year d.month + d.day

/-- Proleptic Gregorian ordinal, with `0001-01-01` mapped to 1
(Python `date.toordinal`). -/
def toOrdinal (d : Date) : ℕ :=
  365 * (d.year - 1) + (d.year - 1) / 4 - (d.year - 1) / 100 + (d.year - 1) / 400
    + day_of_year d

/-- The GPS epoch `datetime(1980, 1, 6)` of the source (`gps_start_date`). -/
def gps_start_date : Date := ⟨1980, 1, 6⟩

/-- Result record of `calculate_gps_week_number`: the source returns
`(gps_week, gps_week_number, day_of_year, year)` and computes
`gps_day_of_week` internally; all five values are recorded here. -/
structure GpsTime where
  week : ℤ
  dayOfWeek : ℤ
  compositeId : ℤ
  dayOfYear : ℕ
  year : ℕ
deriving DecidableEq, Repr

/-- `days_since_start = (target_date - gps_start_date).days` (source line 35);
the subtraction of two midnight datetimes yields the exact signed whole-day
difference. -/
def days_since_start (d : Date) : ℤ :=
  (toOrdinal d : ℤ) - (toOrdinal gps_start_date : ℤ)

/-- Embedding of `calculate_gps_week_number` (source lines 27–41).
`gps_week = days_since_start // 7`; `gps_day_of_week = days_since_start % 7`;
`gps_week_number = gps_week * 10 + gps_day_of_week`.  Python `//`/`%` are
floor division/modulus, which for the positive divisor 7 coincide with
`ℤ`'s `/` and `%` used here. -/
def calculate_gps_week_number (d : Date) : GpsTime :=
  { week := days_since_start d / 7
    dayOfWeek := days_since_start d % 7
    compositeId := days_since_start d / 7 * 10 + days_since_start d % 7
    dayOfYear := day_of_year d
    year := d.year }

/-- Variant of `calculate_gps_week_number` following the claim's words
("truncating integer division, not floor division"): `Int.tdiv`/`Int.tmod`
round toward zero.  It exists only to be compared with the embedding of
the source, which floors. -/
def calculate_gps_week_number_truncating (d : Date) : GpsTime :=
  { week := (days_since_start d).tdiv 7
    dayOfWeek := (days_since_start d).tmod 7
    compositeId := (days_since_start d).tdiv 7 * 10 + (days_since_start d).tmod 7
    dayOfYear := day_of_year d
    year := d.year }

/-- C1: for the GPS epoch date 1980-01-06, `calculate_gps_week_number`
returns week 0, day-of-week 0, day-of-year 6 and year 1980. -/
theorem c1_epoch_anchor :
    (calculate_gps_week_number ⟨1980, 1, 6⟩).week = 0 ∧
    (calculate_gps_week_number ⟨1980, 1, 6⟩).dayOfWeek = 0 ∧
    (calculate_gps_week_number ⟨1980, 1, 6⟩).dayOfYear = 6 ∧
    (calculate_gps_week_number ⟨1980, 1, 6⟩).year = 1980 := by
  decide

/-- C3 counterexample: the source floors rather than truncates.  At the
pre-epoch date 1980-01-05 the source's embedding yields
`dayOfWeek = 6 ∈ [0,6]` (with `week = -1`), whereas the truncating variant
the claim describes would yield `dayOfWeek = -1`; the two functions
disagree at this input, so the source does not use truncating division. -/
theorem c3_counterexample :
    (calculate_gps_week_number ⟨1980, 1, 5⟩).week = -1 ∧
    (calculate_gps_week_number ⟨1980, 1, 5⟩).dayOfWeek = 6 ∧
    (calculate_gps_week_number_truncating ⟨1980, 1, 5⟩).dayOfWeek = -1 ∧
    calculate_gps_week_number ⟨1980, 1, 5⟩ ≠
      calculate_gps_week_number_truncating ⟨1980, 1, 5⟩ := by
  decide

/-- C3 (amended): the source computes week and day-of-week with Python's
floor division and floor modulus, so for every date — pre-epoch dates
included — the computed day-of-week lies in `[0, 6]`. -/
theorem c3_amended_dayOfWeek_in_range (d : Date) :
    0 ≤ (calculate_gps_week_number d).dayOfWeek ∧
    (calculate_gps_week_number d).dayOfWeek ≤ 6 := by
  simp only [calculate_gps_week_number]
  omega

/-- C6: for every date, the composite identifier equals
`week * 10 + dayOfWeek`, and since `dayOfWeek ∈ [0, 6] ⊂ [0, 9]` the pair
`(week, dayOfWeek)` is recovered from it by (floor) division and remainder
by 10. -/
theorem c6_compositeId_roundtrip (d : Date) :
    (calculate_gps_week_number d).compositeId =
      (calculate_gps_week_number d).week * 10 +
        (calculate_gps_week_number d).dayOfWeek ∧
    (calculate_gps_week_number d).compositeId / 10 =
      (calculate_gps_week_number d).week ∧
    (calculate_gps_week_number d).compositeId % 10 =
      (calculate_gps_week_number d).dayOfWeek := by
  simp only [calculate_gps_week_number]
  refine ⟨trivial, ?_, ?_⟩ <;> omega

/-- For a valid date the 1-based day of year lies in `[1, 366]`. -/
theorem day_of_year_bounds (d : Date) (hv : ValidDate d) :
    1 ≤ day_of_year d ∧ day_of_year d ≤ 366 := by
  obtain ⟨y, m, day⟩ := d
  obtain ⟨hy, hm1, hm2, hd1, hd2⟩ := hv
  simp only at hm1 hm2 hd1 hd2
  unfold day_of_year
  cases hleap : isLeap y <;>
    interval_cases m <;>
      simp_all [days_before_month, daysInMonth] <;> omega

/-- C7 counterexample: the valid calendar date 1980-01-05 lies before the
GPS epoch, and on it `calculate_gps_week_number` returns the negative week
`-1`, violating the claimed invariant `week ≥ 0` which therefore does not
hold for *every* valid calendar date. -/
theorem c7_counterexample :
    ValidDate ⟨1980, 1, 5⟩ ∧
    (calculate_gps_week_number ⟨1980, 1, 5⟩).week < 0 := by
  decide

/-- C7 (amended): for every valid calendar date on or after the GPS epoch
1980-01-06, the identifier satisfies `week ≥ 0`, `dayOfWeek ∈ [0, 6]` and
`dayOfYear ∈ [1, 366]` (for dates before the epoch, `week` is negative). -/
theorem c7_amended_field_invariants (d : Date) (hv : ValidDate d)
    (h : toOrdinal gps_start_date ≤ toOrdinal d) :
    0 ≤ (calculate_gps_week_number d).week ∧
    0 ≤ (calculate_gps_week_number d).dayOfWeek ∧
    (calculate_gps_week_number d).dayOfWeek ≤ 6 ∧
    1 ≤ (calculate_gps_week_number d).dayOfYear ∧
    (calculate_gps_week_number d).dayOfYear ≤ 366 := by
  have hdoy := day_of_year_bounds d hv
  simp only [calculate_gps_week_number, days_since_start]
  have h7 : (0 : ℤ) ≤ (toOrdinal d : ℤ) - (toOrdinal gps_start_date : ℤ) := by
    omega
  refine ⟨Int.ediv_nonneg h7 (by norm_num), by omega, by omega, hdoy.1, hdoy.2⟩

/-- Witness for the amended C7 at the epoch date itself. -/
theorem c7_amended_witness :
    (ValidDate ⟨1980, 1, 6⟩ ∧
      toOrdinal gps_start_date ≤ toOrdinal ⟨1980, 1, 6⟩) ∧
    (0 ≤ (calculate_gps_week_number ⟨1980, 1, 6⟩).week ∧
      0 ≤ (calculate_gps_week_number ⟨1980, 1, 6⟩).dayOfWeek ∧
      (calculate_gps_week_number ⟨1980, 1, 6⟩).dayOfWeek ≤ 6 ∧
      1 ≤ (calculate_gps_week_number ⟨1980, 1, 6⟩).dayOfYear ∧
      (calculate_gps_week_number ⟨1980, 1, 6⟩).dayOfYear ≤ 366) :=
  ⟨⟨by decide, by decide⟩,
    c7_amended_field_invariants ⟨1980, 1, 6⟩ (by decide) (by decide)⟩

/-- Zero-padding to width 3, as Python's `f"{day_of_year:03d}"`. -/
def pad3 (n : ℕ) : String :=
  if n < 10 then "00" ++ toString n
  else if n < 100 then "0" ++ toString n
  else toString n

/-- One entry of the `files_to_download` list of `download_efemerides`:
`(url, label, compression_type)` (source lines 79, 83, 87). -/
structure FileToDownload where
  url : String
  label : String
  compression_type : String
deriving DecidableEq, Repr

/-- `precise_url` (source line 78). -/
def precise_url (g : GpsTime) : String :=
  "http://lox.ucsd.edu/pub/products/" ++ toString g.week ++ "/JAX0MGXFIN_"
    ++ toString g.year ++ pad3 g.dayOfYear ++ "0000_01D_05M_ORB.SP3.gz"

/-- `rapid_url` (source line 82). -/
def rapid_url (g : GpsTime) : String :=
  "http://lox.ucsd.edu/pub/products/" ++ toString g.week ++ "/igr"
    ++ toString g.compositeId ++ ".sp3.Z"

/-- `gfz_url` (source line 86). -/
def gfz_url (g : GpsTime) : String :=
  "http://lox.ucsd.edu/pub/products/" ++ toString g.week ++ "/GFZ0OPSRAP_"
    ++ toString g.year ++ pad3 g.dayOfYear ++ "0000_01D_05M_ORB.SP3.gz"

/-- The URL-building part of `download_efemerides` (source lines 76–87):
the `files_to_download` list is assembled by three successive `if`
statements, so its order is the fixed declaration order
precise (JAX), rapid, GFZ, independent of how the selection was made. -/
def files_to_download (g : GpsTime)
    (download_precise download_rapid download_gfz : Bool) : List FileToDownload :=
  (if download_precise then [⟨precise_url g, "Precisas JAX", "gz"⟩] else [])
    ++ (if download_rapid then [⟨rapid_url g, "Rápidas", "Z"⟩] else [])
    ++ (if download_gfz then [⟨gfz_url g, "GFZ", "gz"⟩] else [])

/-- C8: for every selection of products, the descriptor list follows the
fixed declaration order precise (JAX), rapid, GFZ — its label sequence is
a sublist of `["Precisas JAX", "Rápidas", "GFZ"]` — and a product's label
occurs in it exactly when that product was selected. -/
theorem c8_files_in_declaration_order (g : GpsTime) (p r gfz : Bool) :
    ((files_to_download g p r gfz).map FileToDownload.label).Sublist
        ["Precisas JAX", "Rápidas", "GFZ"] ∧
    ("Precisas JAX" ∈ (files_to_download g p r gfz).map FileToDownload.label ↔
        p = true) ∧
    ("Rápidas" ∈ (files_to_download g p r gfz).map FileToDownload.label ↔
        r = true) ∧
    ("GFZ" ∈ (files_to_download g p r gfz).map FileToDownload.label ↔
        gfz = true) := by
  cases p <;> cases r <;> cases gfz <;> simp [files_to_download]

/-- One row of the station table `Coordenadas.csv` (columns used by the
ranking block: `Id`, `Nombre Municipio`, `Nombre Departamento`,
`Latitud`, `Longitud`). -/
structure Station where
  id : String
  nombre_municipio : String
  nombre_departamento : String
  latitud : ℚ
  longitud : ℚ
deriving DecidableEq, Repr

/-- Embedding of the ranking block (source lines 235–238):
`df["Distancia_km"] = df.apply(lambda row: geodesic(user_coord,
(row['Latitud'], row['Longitud'])).kilometers, axis=1)` followed by
`df_sorted = df.sort_values("Distancia_km").head(num_estaciones)`.
The geodesic distance of `geopy` is an external collaborator and is kept
abstract as the parameter `dist`; sorting ascending by the distance column
is embedded as a merge sort on the distance key, and `head` as `take`. -/
def rankNearest (dist : ℚ × ℚ → ℚ × ℚ → ℚ) (user_coord : ℚ × ℚ)
    (stations : List Station) (k : ℕ) : List (Station × ℚ) :=
  (((stations.map (fun s => (s, dist user_coord (s.latitud, s.longitud)))).mergeSort
      (fun a b => decide (a.2 ≤ b.2))).take k)

/-- C2: for every distance function, reference coordinate, station list and
`k ≥ 1`, the ranking result has non-decreasing `Distancia_km` values and
length `min k (number of stations)`. -/
theorem c2_rankNearest_sorted_and_length (dist : ℚ × ℚ → ℚ × ℚ → ℚ)
    (user_coord : ℚ × ℚ) (stations : List Station) (k : ℕ) (hk : 1 ≤ k) :
    List.Pairwise (fun a b : Station × ℚ => a.2 ≤ b.2)
        (rankNearest dist user_coord stations k) ∧
    (rankNearest dist user_coord stations k).length = min k stations.length := by
  constructor
  · have hs := @List.sorted_mergeSort (Station × ℚ)
        (fun a b => decide (a.2 ≤ b.2))
        (fun a b c hab hbc => by
          simp only [decide_eq_true_eq] at *
          exact le_trans hab hbc)
        (fun a b => by
          simp only [Bool.or_eq_true, decide_eq_true_eq]
          exact le_total a.2 b.2)
        (stations.map (fun s => (s, dist user_coord (s.latitud, s.longitud))))
    have hp : List.Pairwise (fun a b : Station × ℚ => a.2 ≤ b.2)
        ((stations.map (fun s => (s, dist user_coord (s.latitud, s.longitud)))).mergeSort
          (fun a b => decide (a.2 ≤ b.2))) := by
      refine hs.imp ?_
      intro a b hab
      simpa using hab
    exact hp.sublist (List.take_sublist _ _)
  · simp [rankNearest, List.length_take, List.length_mergeSort]

/-- A concrete station row used for closed-instance checks. -/
def station_bogota : Station :=
  ⟨"BOGA", "Bogotá", "Cundinamarca", 4, -74⟩

/-- A second concrete station row used for closed-instance checks. -/
def station_pasto : Station :=
  ⟨"PSTO", "Pasto", "Nariño", 1, -77⟩

/-- Witness for C2: at the concrete squared-planar distance, reference
`(0, 0)`, a two-station table and `k = 2`, the hypothesis `1 ≤ 2` holds
and the ranking is sorted with length `min 2 2`. -/
theorem c2_rankNearest_witness :
    1 ≤ 2 ∧
    (List.Pairwise (fun a b : Station × ℚ => a.2 ≤ b.2)
        (rankNearest (fun p q => (p.1 - q.1) ^ 2 + (p.2 - q.2) ^ 2) (0, 0)
          [station_bogota, station_pasto] 2) ∧
      (rankNearest (fun p q => (p.1 - q.1) ^ 2 + (p.2 - q.2) ^ 2) (0, 0)
          [station_bogota, station_pasto] 2).length =
        min 2 [station_bogota, station_pasto].length) :=
  ⟨by norm_num,
    c2_rankNearest_sorted_and_length (fun p q => (p.1 - q.1) ^ 2 + (p.2 - q.2) ^ 2)
      (0, 0) [station_bogota, station_pasto] 2 (by norm_num)⟩

/-- C9: ranking over an empty station table returns the empty list (and is
a total function, not an error), for every distance function, reference
coordinate and `k`. -/
theorem c9_rankNearest_empty (dist : ℚ × ℚ → ℚ × ℚ → ℚ)
    (user_coord : ℚ × ℚ) (k : ℕ) :
    rankNearest dist user_coord ([] : List Station) k = [] := by
  simp [rankNearest]

/-- Embedding of the DMS → decimal conversion (source lines 178–179):
`lat = lat_deg + lat_min / 60 + lat_sec / 3600` — a plain sum, applied the
same way whatever the sign of the degrees.  The widgets constrain
`deg ∈ [-90, 90]` (or `[-180, 180]`), `minutes ∈ [0, 59]`,
`sec ∈ [0, 59.999999]`. -/
def dms_to_decimal (deg minutes sec : ℚ) : ℚ :=
  deg + minutes / 60 + sec / 3600

/-- The conversion rule stated by the spec ("the correct general rule"):
`magnitude = |deg| + min/60 + sec/3600`, negated when `deg < 0`.  It exists
only to be compared with `dms_to_decimal`, the embedding of the source. -/
def dms_rule_spec (deg minutes sec : ℚ) : ℚ :=
  if 0 ≤ deg then |deg| + minutes / 60 + sec / 3600
  else -(|deg| + minutes / 60 + sec / 3600)

/-- C5 divergence: at degrees `-75`, minutes `30`, seconds `0`, the source's
conversion yields `-74.5` — the minutes reduce the magnitude — while the
rule the claim states yields `-75.5`; the source therefore does not follow
the claimed rule. -/
theorem c5_dms_divergence :
    dms_to_decimal (-75) 30 0 = -149 / 2 ∧
    dms_rule_spec (-75) 30 0 = -151 / 2 ∧
    dms_to_decimal (-75) 30 0 ≠ dms_rule_spec (-75) 30 0 := by
  refine ⟨by norm_num [dms_to_decimal], by norm_num [dms_rule_spec], ?_⟩
  norm_num [dms_to_decimal, dms_rule_spec]

/-- Embedding of the `user_coord` assignment for the DMS branch
(source lines 164, 181–182): `user_coord = None`; then
`if lat != 0.0 or lon != 0.0: user_coord = (lat, lon)`. -/
def user_coord_dms (lat lon : ℚ) : Option (ℚ × ℚ) :=
  if lat ≠ 0 ∨ lon ≠ 0 then some (lat, lon) else none

/-- The error message of the `else` branch of the Generar Mapa block
(source line 355). -/
def invalid_coord_message : String :=
  "Por favor, ingresa una coordenada válida para generar el mapa."

/-- Embedding of the Generar Mapa dispatch (source lines 233–238 and
354–355): with a loaded station table, ranking runs exactly when
`user_coord is not None`; otherwise the block reports a validation error. -/
def generar_mapa (dist : ℚ × ℚ → ℚ × ℚ → ℚ) (user_coord : Option (ℚ × ℚ))
    (stations : List Station) (k : ℕ) : Except String (List (Station × ℚ)) :=
  match user_coord with
  | some ref => Except.ok (rankNearest dist ref stations k)
  | none => Except.error invalid_coord_message

/-- C10: the user coordinate is accepted exactly when it differs from
`(0, 0)`: for `(lat, lon) ≠ (0, 0)` the Generar Mapa block produces the
ranking result, while the valid coordinate `(0°, 0°)` is treated as missing
input and refused with the validation error message. -/
theorem c10_zero_coordinate_refused (dist : ℚ × ℚ → ℚ × ℚ → ℚ)
    (stations : List Station) (k : ℕ) (lat lon : ℚ) :
    (user_coord_dms lat lon = some (lat, lon) ↔ ¬(lat = 0 ∧ lon = 0)) ∧
    (generar_mapa dist (user_coord_dms lat lon) stations k =
        Except.ok (rankNearest dist (lat, lon) stations k) ↔
      ¬(lat = 0 ∧ lon = 0)) ∧
    (generar_mapa dist (user_coord_dms lat lon) stations k =
        Except.error invalid_coord_message ↔ (lat = 0 ∧ lon = 0)) := by
  by_cases h : lat = 0 ∧ lon = 0
  · have hif : ¬(lat ≠ 0 ∨ lon ≠ 0) := by tauto
    simp [user_coord_dms, generar_mapa, hif, h]
  · have hif : lat ≠ 0 ∨ lon ≠ 0 := by tauto
    simp [user_coord_dms, generar_mapa, hif, h]
